import Mathlib

/-!
Shallow embedding of the runnable / debug-target resolution logic of the
coc-wgsl-analyzer plugin (file `src/commands.ts` of the repository, read here
from `src/src/downloader.ts` lines 193-1074 of the source pack).

The embedding covers:
* the `Runnable` data model (`src/lsp_ext.ts`),
* the argument-list construction shared by `runSingle`, `debugSingle` and
  `echoRunCommandLine` (including the in-place mutation of
  `runnable.args.executableArgs[0]` performed by the TypeScript code, modelled
  by returning the post-state of the runnable),
* the debug-specific argument rewrites of `debugSingle`,
* the expected-kind / expected-name filter derivation from `webbyArgs`,
* the JSON-lines stdout scan of `debugSingle` that resolves the debug
  executable, with a small model of JavaScript value semantics (property access on
  `null`/`undefined` throws `TypeError`, primitives are boxed and yield
  `undefined`, `Array.prototype.includes`, strict equality against a string,
  truthiness),
* the debug-runtime dispatch (`termdebug` / `vimspector` / `nvim-dap`),
* the single-slot run-terminal management of `runSingle`,
* the `fetchRunnable` / `pickRunnable` precondition behaviour.
-/

/-- The `Runnable` type of `src/lsp_ext.ts`: a tagged union with
`kind: 'webby'` (payload `webbyArgs`, `executableArgs`, `cwd`, ...) or
`kind: 'shell'` (payload `program`, `args`, `cwd`, ...).  Fields not read by
the resolution logic (`location`, `environment`, `workspaceRoot`,
`overrideWebby`) are omitted. -/
inductive Runnable where
  | webby (label : String) (webbyArgs : List String) (executableArgs : List String) (cwd : String)
  | shell (label : String) (program : String) (args : List String) (cwd : String)
deriving DecidableEq

/-- The discriminant string `runnable.kind`. -/
def Runnable.kind : Runnable → String
  | .webby .. => "webby"
  | .shell .. => "shell"

/-- `'${s}'` : wrap a string in single quotes (the backtick-template
`` `'${...}'` `` of the source, written with `\x27` for the quote). -/
def squote (s : String) : String := "\x27" ++ s ++ "\x27"

/-- The mutation `runnable.args['executableArgs'][0] = `'...'`` : the first
element of the list is overwritten with its single-quoted form. -/
def quoteFirst : List String → List String
  | [] => []
  | a :: rest => squote a :: rest

/-- The argument-construction block shared verbatim by `runSingle`,
`debugSingle` and `echoRunCommandLine`:

```
let args: string[] = [];
if (runnable.kind === 'webby') {
  args = [...runnable.args.webbyArgs];
  if (runnable.args.executableArgs.length > 0) {
    runnable.args['executableArgs'][0] = `'${runnable.args['executableArgs'][0]}'`;
    args.push('--', ...runnable.args.executableArgs);
  }
} else {
  args = [...runnable.args.args];
}
```

The TypeScript code mutates the runnable in place; the embedding returns the
constructed argument list together with the post-state of the runnable. -/
def buildRunnableArgs : Runnable → List String × Runnable
  | .webby label wargs eargs cwd =>
    if eargs.length > 0 then
      let eargs2 := quoteFirst eargs
      (wargs ++ "--" :: eargs2, .webby label wargs eargs2 cwd)
    else
      (wargs, .webby label wargs eargs cwd)
  | .shell label program args cwd => (args, .shell label program args cwd)

/-- The command line built by `runSingle`:
`` const cmd = `${runnable.kind} ${args.join(' ')}`; ``
(note: the *kind discriminant*, not the shell payload's `program` field).
Returns the command string together with the post-state of the runnable. -/
def runSingleCmd (r : Runnable) : String × Runnable :=
  let p := buildRunnableArgs r
  (Runnable.kind r ++ " " ++ String.intercalate " " p.1, p.2)

/-- The debug-specific rewrites of `debugSingle`, applied to the constructed
argument list *after* the kind branch (hence for both `webby` and `shell`
runnables):

```
if (args[0] === 'test') { args.push('--no-run'); }
if (args[0] === 'run') { args[0] = 'build'; }
args.push('--message-format=json');
```
-/
def applyDebugRewrites (args : List String) : List String :=
  let args1 := if args.head? = some "test" then args ++ ["--no-run"] else args
  let args2 := if args1.head? = some "run" then "build" :: args1.tail else args1
  args2 ++ ["--message-format=json"]

/-- Argument list spawned by `debugSingle` (before the stdout scan), together
with the post-state of the runnable. -/
def debugSingleArgs (r : Runnable) : List String × Runnable :=
  let p := buildRunnableArgs r
  (applyDebugRewrites p.1, p.2)

/-- Claim C3: for a `webby` runnable the constructed argument list is
`webbyArgs` exactly when `executableArgs` is empty, and
`webbyArgs ++ ["--"] ++ executableArgs` with only the first element of
`executableArgs` single-quoted when it is non-empty. -/
theorem wgsl_C3_webby_args :
    (∀ l w c, (buildRunnableArgs (.webby l w [] c)).1 = w)
    ∧ (∀ l w e es c,
        (buildRunnableArgs (.webby l w (e :: es) c)).1 = w ++ "--" :: squote e :: es) := by
  constructor
  · intro l w c
    simp [buildRunnableArgs]
  · intro l w e es c
    simp [buildRunnableArgs, quoteFirst]

/-- Claim C4, counterexample: the command line built by `runSingle` for a
`shell` runnable starts with the literal kind tag `shell`, not with the
runnable's `program` field (`foo` here), so the claim's predicted command
line is wrong. -/
theorem wgsl_C4_counterexample :
    (runSingleCmd (.shell "l" "foo" ["a", "b"] "/w")).1 = "shell a b"
    ∧ (runSingleCmd (.shell "l" "foo" ["a", "b"] "/w")).1 ≠ "foo a b" := by
  constructor
  · rfl
  · decide

/-- Claim C4, amended: for every `shell` runnable the command line equals the
literal kind tag `"shell"` followed by `args` joined with single spaces (the
`program` field is not consulted), with no `--` separator inserted and no
quoting applied to any argument (the argument list is `args` verbatim). -/
theorem wgsl_C4_amended :
    ∀ l p a c,
      (runSingleCmd (.shell l p a c)).1 = "shell " ++ String.intercalate " " a
      ∧ (buildRunnableArgs (.shell l p a c)).1 = a := by
  intro l p a c
  constructor
  · rfl
  · rfl

/-- Claim C5, counterexample: `runSingle` mutates the runnable it is given —
for a `webby` runnable with non-empty `executableArgs` the first element of
`executableArgs` is overwritten with its single-quoted form, so the runnable
is *not* unchanged after command-line construction. -/
theorem wgsl_C5_counterexample :
    (runSingleCmd (.webby "l" ["run"] ["a", "b"] "/w")).2
        = .webby "l" ["run"] ["\x27a\x27", "b"] "/w"
    ∧ (runSingleCmd (.webby "l" ["run"] ["a", "b"] "/w")).2
        ≠ .webby "l" ["run"] ["a", "b"] "/w" := by
  constructor
  · rfl
  · decide

/-- Claim C5, amended: the run/debug argument construction leaves the runnable
unchanged *except* that a `webby` runnable with non-empty `executableArgs` has
the first element of `executableArgs` overwritten with its single-quoted form;
the debug path performs exactly the same mutation as the run path. -/
theorem wgsl_C5_amended :
    (∀ l p a c, (buildRunnableArgs (.shell l p a c)).2 = .shell l p a c)
    ∧ (∀ l w c, (buildRunnableArgs (.webby l w [] c)).2 = .webby l w [] c)
    ∧ (∀ l w e es c,
        (buildRunnableArgs (.webby l w (e :: es) c)).2 = .webby l w (squote e :: es) c)
    ∧ (∀ r, (debugSingleArgs r).2 = (buildRunnableArgs r).2)
    ∧ (∀ r, (runSingleCmd r).2 = (buildRunnableArgs r).2) := by
  refine ⟨?_, ?_, ?_, ?_, ?_⟩
  · intro l p a c; rfl
  · intro l w c; rfl
  · intro l w e es c
    simp [buildRunnableArgs, quoteFirst]
  · intro r; rfl
  · intro r; rfl

/-- Claim C6, counterexample: the two debug rewrites of `debugSingle` are
*not* restricted to `webby` runnables — a `shell` runnable whose first
argument is `run` has it replaced by `build`, and one whose first argument is
`test` gets `--no-run` appended, contrary to the claim. -/
theorem wgsl_C6_counterexample :
    (debugSingleArgs (.shell "l" "p" ["run", "x"] "/w")).1
        = ["build", "x", "--message-format=json"]
    ∧ (debugSingleArgs (.shell "l" "p" ["run", "x"] "/w")).1
        ≠ ["run", "x", "--message-format=json"]
    ∧ (debugSingleArgs (.shell "l" "p" ["test"] "/w")).1
        = ["test", "--no-run", "--message-format=json"] := by
  refine ⟨rfl, by decide, rfl⟩

/-- Claim C6, amended: the two debug-specific rewrites are applied to the
constructed argument list uniformly, for `shell` runnables just as for
`webby` ones (whenever the first constructed token is `test` or `run`), and
the machine-readable-output flag `--message-format=json` is always appended
last. -/
theorem wgsl_C6_amended :
    (∀ l p a c, a.head? = some "run" →
        (debugSingleArgs (.shell l p a c)).1 = ("build" :: a.tail) ++ ["--message-format=json"])
    ∧ (∀ l p a c, a.head? = some "test" →
        (debugSingleArgs (.shell l p a c)).1 = a ++ ["--no-run", "--message-format=json"])
    ∧ (∀ l w c, w.head? = some "run" →
        (debugSingleArgs (.webby l w [] c)).1 = ("build" :: w.tail) ++ ["--message-format=json"])
    ∧ (∀ l w c, w.head? = some "test" →
        (debugSingleArgs (.webby l w [] c)).1 = w ++ ["--no-run", "--message-format=json"])
    ∧ (∀ r, ∃ xs, (debugSingleArgs r).1 = xs ++ ["--message-format=json"]) := by
  have hshell : ∀ l p a c, (debugSingleArgs (.shell l p a c)).1 = applyDebugRewrites a := by
    intro l p a c; rfl
  have hwebby : ∀ l w c, (debugSingleArgs (.webby l w [] c)).1 = applyDebugRewrites w := by
    intro l w c
    simp [debugSingleArgs, buildRunnableArgs]
  have hrun : ∀ a : List String, a.head? = some "run" →
      applyDebugRewrites a = ("build" :: a.tail) ++ ["--message-format=json"] := by
    intro a h
    simp [applyDebugRewrites, h]
  have htest : ∀ a : List String, a.head? = some "test" →
      applyDebugRewrites a = a ++ ["--no-run", "--message-format=json"] := by
    intro a h
    have hh : (a ++ ["--no-run"]).head? = some "test" := by
      cases a with
      | nil => simp at h
      | cons x xs => simpa using h
    simp [applyDebugRewrites, h, hh]
  refine ⟨?_, ?_, ?_, ?_, ?_⟩
  · intro l p a c h; rw [hshell, hrun a h]
  · intro l p a c h; rw [hshell, htest a h]
  · intro l w c h; rw [hwebby, hrun w h]
  · intro l w c h; rw [hwebby, htest w h]
  · intro r
    exact ⟨_, rfl⟩

/-- Witness for the amended claim C6 at concrete inputs. -/
theorem wgsl_C6_amended_witness :
    (debugSingleArgs (.shell "l" "p" ["run", "main"] "/w")).1
        = ["build", "main", "--message-format=json"]
    ∧ (debugSingleArgs (.webby "l" ["test", "--bin", "foo"] [] "/w")).1
        = ["test", "--bin", "foo", "--no-run", "--message-format=json"] :=
  ⟨wgsl_C6_amended.1 "l" "p" ["run", "main"] "/w" rfl,
   wgsl_C6_amended.2.2.2.1 "l" ["test", "--bin", "foo"] "/w" rfl⟩

/-- The switch in `debugSingle` mapping a `webbyArgs` token to the expected
artifact kind (`--bin` ↦ `bin`, `--lib` ↦ `lib`, `--test` ↦ `test`,
`--example` ↦ `example`, `--bench` ↦ `bench`, anything else ↦ no kind). -/
def kindOf : String → Option String
  | "--bin" => some "bin"
  | "--lib" => some "lib"
  | "--test" => some "test"
  | "--example" => some "example"
  | "--bench" => some "bench"
  | _ => none

/-- The first `for (const arg of webbyArgs)` loop of `debugSingle`, carrying
the mutable `expectedKind` as an accumulator: while no kind is set, each token
may set it via the switch; once a kind is set, the very next token sets
`expectedName` (unless the kind is `lib`) and the loop breaks. -/
def scanKindNameLoop : Option String → List String → Option String × Option String
  | k, [] => (k, none)
  | none, a :: rest => scanKindNameLoop (kindOf a) rest
  | some k, a :: _ => (some k, if k = "lib" then none else some a)

/-- The second loop of `debugSingle` (run when `expectedName` is still
undefined), carrying the mutable `foundPackageArgument` flag: once a
`--package` token has been seen, the next token is taken as the name. -/
def packageLoop : Bool → List String → Option String
  | _, [] => none
  | true, a :: _ => some a
  | false, a :: rest => packageLoop (a == "--package") rest

/-- The complete expected-kind / expected-name filter derivation of
`debugSingle` from the runnable's `webbyArgs`. -/
def deriveFilter (webbyArgs : List String) : Option String × Option String :=
  let kn := scanKindNameLoop none webbyArgs
  match kn.2 with
  | some n => (kn.1, some n)
  | none => (kn.1, packageLoop false webbyArgs)

/-- Spec-side formulation ("the first occurrence of one of the kind flags"):
split the token list at the first token recognised by the kind switch,
returning the corresponding tag and the tokens after the flag. -/
def firstKindFlagSplitSpec : List String → Option (String × List String)
  | [] => none
  | a :: rest =>
    match kindOf a with
    | some t => some (t, rest)
    | none => firstKindFlagSplitSpec rest

/-- Spec-side formulation ("the token following `--package`"): the token
immediately after the first occurrence of `--package`, if any. -/
def tokenAfterPackageSpec : List String → Option String
  | [] => none
  | a :: rest => if a = "--package" then rest.head? else tokenAfterPackageSpec rest

/-- Spec-side formulation of the whole filter derivation, written from the
spec's words: the first kind flag sets the kind tag; the token immediately
following it sets the name unless the kind is `lib`; if no name was found
that way, the token following `--package` is taken as the name. -/
def deriveFilterSpec (args : List String) : Option String × Option String :=
  match firstKindFlagSplitSpec args with
  | none => (none, tokenAfterPackageSpec args)
  | some (t, rest) =>
    match if t = "lib" then none else rest.head? with
    | some n => (some t, some n)
    | none => (some t, tokenAfterPackageSpec args)

theorem scanKindNameLoop_some (k : String) (args : List String) :
    scanKindNameLoop (some k) args = (some k, if k = "lib" then none else args.head?) := by
  cases args with
  | nil => simp [scanKindNameLoop]
  | cons a rest => simp [scanKindNameLoop]

theorem scanKindNameLoop_none_eq (args : List String) :
    scanKindNameLoop none args =
      match firstKindFlagSplitSpec args with
      | none => (none, none)
      | some (t, rest) => (some t, if t = "lib" then none else rest.head?) := by
  induction args with
  | nil => simp [scanKindNameLoop, firstKindFlagSplitSpec]
  | cons a rest ih =>
    cases h : kindOf a with
    | none =>
      simp [scanKindNameLoop, firstKindFlagSplitSpec, h, ih]
    | some t =>
      simp [scanKindNameLoop, firstKindFlagSplitSpec, h, scanKindNameLoop_some]

theorem packageLoop_eq_tokenAfterPackageSpec (args : List String) :
    packageLoop false args = tokenAfterPackageSpec args := by
  induction args with
  | nil => rfl
  | cons a rest ih =>
    by_cases h : a = "--package"
    · subst h
      cases rest with
      | nil => simp [packageLoop, tokenAfterPackageSpec]
      | cons b rest2 => simp [packageLoop, tokenAfterPackageSpec]
    · have hb : (a == "--package") = false := by
        simp [h]
      simp [packageLoop, tokenAfterPackageSpec, h, hb, ih]

theorem deriveFilter_eq_spec (args : List String) :
    deriveFilter args = deriveFilterSpec args := by
  unfold deriveFilter deriveFilterSpec
  rw [scanKindNameLoop_none_eq, packageLoop_eq_tokenAfterPackageSpec]
  cases h : firstKindFlagSplitSpec args with
  | none => simp
  | some p =>
    obtain ⟨t, rest⟩ := p
    cases hn : (if t = "lib" then none else rest.head?) with
    | none => simp [hn]
    | some n => simp [hn]

theorem scanKindNameLoop_none_of_no_flag (args : List String)
    (h : ∀ a ∈ args, kindOf a = none) :
    scanKindNameLoop none args = (none, none) := by
  induction args with
  | nil => rfl
  | cons a rest ih =>
    have ha : kindOf a = none := h a (by simp)
    have := ih (fun b hb => h b (by simp [hb]))
    simp [scanKindNameLoop, ha, this]

theorem packageLoop_none_of_no_package (args : List String)
    (h : "--package" ∉ args) :
    packageLoop false args = none := by
  induction args with
  | nil => rfl
  | cons a rest ih =>
    have ha : a ≠ "--package" := by
      intro hc; exact h (by simp [hc])
    have hb : (a == "--package") = false := by simp [ha]
    have := ih (fun hc => h (by simp [hc]))
    simp [packageLoop, hb, this]

/-- Claim C2: the expected-kind / expected-name filter derived by
`debugSingle` matches the spec's description (first kind flag sets the tag,
the following token sets the name unless the kind is `lib`, a second scan
takes the token following `--package` when no name was found), and in
particular `--bin foo` yields `(bin, foo)`, `--lib` alone yields
`(lib, undefined)`, `--lib --package bar` yields `(lib, bar)`, and a token
list with no kind flag and no `--package` yields `(undefined, undefined)`. -/
theorem wgsl_C2_filter :
    (∀ args, deriveFilter args = deriveFilterSpec args)
    ∧ deriveFilter ["--bin", "foo"] = (some "bin", some "foo")
    ∧ deriveFilter ["--lib"] = (some "lib", none)
    ∧ deriveFilter ["--lib", "--package", "bar"] = (some "lib", some "bar")
    ∧ (∀ args, (∀ a ∈ args, kindOf a = none) → "--package" ∉ args →
        deriveFilter args = (none, none)) := by
  refine ⟨deriveFilter_eq_spec, by decide, by decide, by decide, ?_⟩
  intro args hflag hpkg
  unfold deriveFilter
  rw [scanKindNameLoop_none_of_no_flag args hflag]
  simp [packageLoop_none_of_no_package args hpkg]

/-- Witness for claim C2 at concrete inputs. -/
theorem wgsl_C2_filter_witness :
    deriveFilter ["check", "--release"] = (none, none) :=
  wgsl_C2_filter.2.2.2.2 ["check", "--release"] (by decide) (by decide)

/-- Model of a JavaScript value as produced by `JSON.parse` (plus `undefined`,
which surfaces as the result of accessing a missing property). -/
inductive JsValue where
  | undefined
  | null
  | bool (b : Bool)
  | num (n : Int)
  | str (s : String)
  | arr (elems : List JsValue)
  | obj (fields : List (String × JsValue))

/-- The only JavaScript exception the scanned code can raise. -/
inductive JsError where
  | typeError
deriving DecidableEq

/-- JavaScript member access `v[key]` for the fixed (non-numeric) key names
used by `debugSingle` (`reason`, `target`, `kind`, `name`, `executable`):
access on `null` or `undefined` throws a `TypeError`; a missing property of an
object yields `undefined`; primitives and arrays are boxed and yield
`undefined` for these names. -/
def jsIndex : JsValue → String → Except JsError JsValue
  | .undefined, _ => .error .typeError
  | .null, _ => .error .typeError
  | .obj fields, key => .ok ((fields.lookup key).getD .undefined)
  | _, _ => .ok .undefined

/-- JavaScript strict equality `v === s` against a string literal. -/
def jsStrictEqStr : JsValue → String → Bool
  | .str t, s => t == s
  | _, _ => false

/-- JavaScript truthiness. -/
def jsTruthy : JsValue → Bool
  | .undefined => false
  | .null => false
  | .bool b => b
  | .num n => n ≠ 0
  | .str s => s ≠ ""
  | .arr _ => true
  | .obj _ => true

/-- JavaScript `v.includes(s)` as used on `webbyMessage['target']['kind']`:
on an array, membership by strict equality; on a string, substring test; on
any other value a `TypeError` (no `includes` method). -/
def jsIncludesStr : JsValue → String → Except JsError Bool
  | .arr elems, s =>
    .ok (elems.any fun v => match v with | .str t => t == s | _ => false)
  | .str t, s => .ok (if s = "" then true else (t.splitOn s).length ≠ 1)
  | _, _ => .error .typeError

/-- The kind filter of the scan:
`expectedKind !== undefined && !webbyMessage['target']['kind'].includes(expectedKind)`
(the member accesses are evaluated only when a kind filter is set). -/
def checkKind : Option String → JsValue → Except JsError Bool
  | none, _ => .ok true
  | some k, v =>
    match jsIndex v "target" with
    | .error e => .error e
    | .ok target =>
      match jsIndex target "kind" with
      | .error e => .error e
      | .ok kinds => jsIncludesStr kinds k

/-- The name filter of the scan:
`expectedName !== undefined && webbyMessage['target']['name'] !== expectedName`. -/
def checkName : Option String → JsValue → Except JsError Bool
  | none, _ => .ok true
  | some n, v =>
    match jsIndex v "target" with
    | .error e => .error e
    | .ok target =>
      match jsIndex target "name" with
      | .error e => .error e
      | .ok name => .ok (jsStrictEqStr name n)

/-- The body of the `for await (const line of rl)` loop of `debugSingle` for
one successfully JSON-parsed line: skip unless `reason` is
`compiler-artifact`; skip artifacts failing the kind or name filter; accept
the message when its `executable` field is truthy.  `.ok none` means the line
is skipped and the scan continues; `.ok (some e)` means the scan breaks with
executable `e`; `.error` models an uncaught JavaScript `TypeError`.  (The
`if (!webbyMessage) console.debug(...)` in the source only logs and does not
alter control flow.) -/
def processLine (expectedKind expectedName : Option String) (v : JsValue) :
    Except JsError (Option JsValue) :=
  match jsIndex v "reason" with
  | .error e => .error e
  | .ok reason =>
    if jsStrictEqStr reason "compiler-artifact" = false then .ok none
    else
      match checkKind expectedKind v with
      | .error e => .error e
      | .ok false => .ok none
      | .ok true =>
        match checkName expectedName v with
        | .error e => .error e
        | .ok false => .ok none
        | .ok true =>
          match jsIndex v "executable" with
          | .error e => .error e
          | .ok ex => if jsTruthy ex then .ok (some ex) else .ok none

/-- One line of the build tool's stdout stream as seen by the scan: an empty
line (skipped by `if (!line) continue`), a line on which `JSON.parse` throws
(logged and skipped), or a successfully parsed message. -/
inductive StreamLine where
  | empty
  | badJson
  | msg (v : JsValue)

/-- The stdout scan loop of `debugSingle`: consume lines in order, skipping
empty and unparseable lines, processing parsed messages with `processLine`;
the first accepted message terminates the scan (no further lines are
consumed). -/
def scanStream (expectedKind expectedName : Option String) :
    List StreamLine → Except JsError (Option JsValue)
  | [] => .ok none
  | .empty :: rest => scanStream expectedKind expectedName rest
  | .badJson :: rest => scanStream expectedKind expectedName rest
  | .msg v :: rest =>
    match processLine expectedKind expectedName v with
    | .error e => .error e
    | .ok (some x) => .ok (some x)
    | .ok none => scanStream expectedKind expectedName rest

/-- Outcome of the debug-target resolution. -/
inductive ResolveOutcome where
  | resolved (executable : JsValue)
  | couldNotFindExecutable
  | typeError

/-- The complete resolution: run the scan; an exhausted stream with no
accepted message hits `if (!executable) throw new Error('Could not find
executable')`; an uncaught `TypeError` aborts the whole operation. -/
def debugResolve (expectedKind expectedName : Option String)
    (stream : List StreamLine) : ResolveOutcome :=
  match scanStream expectedKind expectedName stream with
  | .error _ => .typeError
  | .ok none => .couldNotFindExecutable
  | .ok (some e) => .resolved e

/-- `true` exactly when the scan loop passes over the line and continues:
empty lines, unparseable lines, and parsed messages that `processLine`
skips. -/
def lineSkippedB (expectedKind expectedName : Option String) : StreamLine → Bool
  | .empty => true
  | .badJson => true
  | .msg v =>
    match processLine expectedKind expectedName v with
    | .ok none => true
    | _ => false

/-- A well-formed `compiler-artifact` message with the given `target.kind`
list, `target.name`, and optional `executable` field. -/
def mkArtifact (kinds : List String) (name : String) (exe : Option String) : JsValue :=
  .obj ([("reason", .str "compiler-artifact"),
         ("target", .obj [("kind", .arr (kinds.map .str)), ("name", .str name)])]
        ++ (match exe with
            | some s => [("executable", JsValue.str s)]
            | none => []))

/-- The kind filter accepts the artifact: no filter, or the filter tag occurs
in the `target.kind` list. -/
def KindPasses (expectedKind : Option String) (kinds : List String) : Prop :=
  expectedKind = none ∨ ∃ k, expectedKind = some k ∧ k ∈ kinds

/-- The name filter accepts the artifact: no filter, or the filter equals the
`target.name`. -/
def NamePasses (expectedName : Option String) (name : String) : Prop :=
  expectedName = none ∨ expectedName = some name

theorem anyMapStrEq (k : String) (kinds : List String) :
    ((kinds.map JsValue.str).any fun v => match v with | .str t => t == k | _ => false)
      = kinds.any fun t => t == k := by
  induction kinds with
  | nil => rfl
  | cons a l ih => simp [List.any_cons, ih]

theorem checkKind_mkArtifact (k name : String) (kinds : List String) (exe : Option String) :
    checkKind (some k) (mkArtifact kinds name exe) = .ok (kinds.any fun t => t == k) := by
  have h : checkKind (some k) (mkArtifact kinds name exe)
      = jsIncludesStr (.arr (kinds.map JsValue.str)) k := rfl
  rw [h]
  simp only [jsIncludesStr, anyMapStrEq]

theorem checkKind_passes (kinds : List String) (name : String) (exe : Option String)
    (ek : Option String) (hk : KindPasses ek kinds) :
    checkKind ek (mkArtifact kinds name exe) = .ok true := by
  rcases hk with h | ⟨k2, hek, hmem⟩
  · subst h; rfl
  · subst hek
    rw [checkKind_mkArtifact]
    have : kinds.any (fun t => t == k2) = true := List.any_eq_true.mpr ⟨k2, hmem, by simp⟩
    rw [this]

theorem checkName_mkArtifact (n name : String) (kinds : List String) (exe : Option String) :
    checkName (some n) (mkArtifact kinds name exe) = .ok (name == n) := rfl

theorem checkName_passes (kinds : List String) (name : String) (exe : Option String)
    (en : Option String) (hn : NamePasses en name) :
    checkName en (mkArtifact kinds name exe) = .ok true := by
  rcases hn with h | h
  · subst h; rfl
  · subst h
    rw [checkName_mkArtifact]
    simp

theorem jsIndex_mkArtifact_reason (kinds : List String) (name : String) (exe : Option String) :
    jsIndex (mkArtifact kinds name exe) "reason" = .ok (.str "compiler-artifact") := rfl

theorem processLine_not_artifact (ek en : Option String) (reason : String)
    (fields : List (String × JsValue)) (h : reason ≠ "compiler-artifact") :
    processLine ek en (.obj (("reason", .str reason) :: fields)) = .ok none := by
  have hb : (reason == "compiler-artifact") = false := beq_eq_false_iff_ne.mpr h
  simp [processLine, jsIndex, List.lookup, jsStrictEqStr, hb]

theorem processLine_wrong_kind (en : Option String) (k name : String)
    (kinds : List String) (exe : Option String) (h : k ∉ kinds) :
    processLine (some k) en (mkArtifact kinds name exe) = .ok none := by
  have hk : checkKind (some k) (mkArtifact kinds name exe) = .ok false := by
    rw [checkKind_mkArtifact]
    have : kinds.any (fun t => t == k) = false := by
      rw [List.any_eq_false]
      intro t ht
      simp only [beq_iff_eq]
      intro hc
      exact h (hc ▸ ht)
    rw [this]
  simp [processLine, jsIndex_mkArtifact_reason, jsStrictEqStr, hk]

theorem processLine_wrong_name (ek : Option String) (n name : String)
    (kinds : List String) (exe : Option String)
    (hk : KindPasses ek kinds) (h : n ≠ name) :
    processLine ek (some n) (mkArtifact kinds name exe) = .ok none := by
  have hn : checkName (some n) (mkArtifact kinds name exe) = .ok false := by
    rw [checkName_mkArtifact]
    have : (name == n) = false := beq_eq_false_iff_ne.mpr (fun hc => h hc.symm)
    rw [this]
  simp [processLine, jsIndex_mkArtifact_reason, jsStrictEqStr,
    checkKind_passes kinds name exe ek hk, hn]

theorem processLine_accepts (ek en : Option String) (s name : String)
    (kinds : List String) (hk : KindPasses ek kinds) (hn : NamePasses en name)
    (hs : s ≠ "") :
    processLine ek en (mkArtifact kinds name (some s)) = .ok (some (.str s)) := by
  have he : jsIndex (mkArtifact kinds name (some s)) "executable" = .ok (.str s) := rfl
  simp [processLine, jsIndex_mkArtifact_reason, jsStrictEqStr,
    checkKind_passes kinds name (some s) ek hk,
    checkName_passes kinds name (some s) en hn, he, jsTruthy, hs]

theorem processLine_no_executable (ek en : Option String) (name : String)
    (kinds : List String) (hk : KindPasses ek kinds) (hn : NamePasses en name) :
    processLine ek en (mkArtifact kinds name none) = .ok none := by
  have he : jsIndex (mkArtifact kinds name none) "executable" = .ok .undefined := rfl
  simp [processLine, jsIndex_mkArtifact_reason, jsStrictEqStr,
    checkKind_passes kinds name none ek hk,
    checkName_passes kinds name none en hn, he, jsTruthy]

theorem lineSkippedB_msg (ek en : Option String) (v : JsValue)
    (h : lineSkippedB ek en (.msg v) = true) :
    processLine ek en v = .ok none := by
  have h2 : (match processLine ek en v with
      | Except.ok none => true
      | _ => false) = true := h
  split at h2
  · rename_i heq
    exact heq
  · simp at h2

theorem scanStream_skips (ek en : Option String) (pre rest : List StreamLine)
    (h : ∀ l ∈ pre, lineSkippedB ek en l = true) :
    scanStream ek en (pre ++ rest) = scanStream ek en rest := by
  induction pre with
  | nil => rfl
  | cons l pre2 ih =>
    have hl := h l (by simp)
    have hrest : ∀ x ∈ pre2, lineSkippedB ek en x = true :=
      fun x hx => h x (by simp [hx])
    cases l with
    | empty => simpa [scanStream] using ih hrest
    | badJson => simpa [scanStream] using ih hrest
    | msg v =>
      have hv : processLine ek en v = .ok none := lineSkippedB_msg ek en v hl
      simp only [List.cons_append, scanStream, hv]
      exact ih hrest

/-- Claim C1: the stdout scan of `debugSingle` (1) resolves to the executable
of the first message accepted by `processLine` once every earlier line is
skipped, consuming no further lines (the trailing `rest` is arbitrary and
unread); (2) fails with the fixed could-not-find-executable error exactly when
every line of the stream is skipped; and the skip/accept behaviour of a line
is as claimed: (3) parsed messages whose `reason` is not `compiler-artifact`
are skipped, (4) artifact messages whose `target.kind` does not contain the
expected kind are skipped, (5) artifact messages whose `target.name` differs
from the expected name are skipped, (6) an artifact message passing both
filters with a non-empty `executable` is accepted with that executable, and
(7) one passing both filters without an `executable` field is skipped. -/
theorem wgsl_C1_scan :
    (∀ ek en (pre rest : List StreamLine) (v e : JsValue),
        (∀ l ∈ pre, lineSkippedB ek en l = true) →
        processLine ek en v = .ok (some e) →
        debugResolve ek en (pre ++ .msg v :: rest) = .resolved e)
    ∧ (∀ ek en (stream : List StreamLine),
        (∀ l ∈ stream, lineSkippedB ek en l = true) →
        debugResolve ek en stream = .couldNotFindExecutable)
    ∧ (∀ ek en reason fields, reason ≠ "compiler-artifact" →
        processLine ek en (.obj (("reason", .str reason) :: fields)) = .ok none)
    ∧ (∀ en k name kinds exe, k ∉ kinds →
        processLine (some k) en (mkArtifact kinds name exe) = .ok none)
    ∧ (∀ ek n name kinds exe, KindPasses ek kinds → n ≠ name →
        processLine ek (some n) (mkArtifact kinds name exe) = .ok none)
    ∧ (∀ ek en s name kinds, KindPasses ek kinds → NamePasses en name → s ≠ "" →
        processLine ek en (mkArtifact kinds name (some s)) = .ok (some (.str s)))
    ∧ (∀ ek en name kinds, KindPasses ek kinds → NamePasses en name →
        processLine ek en (mkArtifact kinds name none) = .ok none) := by
  refine ⟨?_, ?_, ?_, ?_, ?_, ?_, ?_⟩
  · intro ek en pre rest v e hpre hv
    unfold debugResolve
    rw [scanStream_skips ek en pre (.msg v :: rest) hpre]
    simp [scanStream, hv]
  · intro ek en stream hall
    unfold debugResolve
    have : scanStream ek en (stream ++ []) = scanStream ek en [] :=
      scanStream_skips ek en stream [] hall
    rw [List.append_nil] at this
    rw [this]
    rfl
  · exact fun ek en reason fields h => processLine_not_artifact ek en reason fields h
  · exact fun en k name kinds exe h => processLine_wrong_kind en k name kinds exe h
  · exact fun ek n name kinds exe hk h => processLine_wrong_name ek n name kinds exe hk h
  · exact fun ek en s name kinds hk hn hs => processLine_accepts ek en s name kinds hk hn hs
  · exact fun ek en name kinds hk hn => processLine_no_executable ek en name kinds hk hn

/-- Witness for claim C1 at the spec's concrete example: the stream
`[not-json, a message with reason other, a bin/foo artifact with executable
/x, one further line]` under filter `(bin, foo)` resolves to `/x` without
consuming the trailing line. -/
theorem wgsl_C1_scan_witness :
    debugResolve (some "bin") (some "foo")
      [.badJson, .msg (.obj [("reason", .str "other")]),
       .msg (mkArtifact ["bin"] "foo" (some "/x")), .badJson]
      = .resolved (.str "/x") :=
  wgsl_C1_scan.1 (some "bin") (some "foo")
    [.badJson, .msg (.obj [("reason", .str "other")])] [.badJson]
    (mkArtifact ["bin"] "foo" (some "/x")) (.str "/x")
    (by decide) rfl

/-- Claim C10, counterexample: a stdout line that parses successfully to the
non-object JSON value `5` does *not* make `debugSingle` throw a `TypeError` —
it is logged and skipped like any non-artifact message (property access on a
boxed number yields `undefined` in JavaScript), and the scan continues to
resolve a later artifact. -/
theorem wgsl_C10_counterexample :
    processLine none none (.num 5) = .ok none
    ∧ processLine none none (.num 5) ≠ .error .typeError
    ∧ debugResolve none none
        [.msg (.num 5), .msg (mkArtifact ["bin"] "m" (some "/x"))]
        = .resolved (.str "/x") := by
  refine ⟨rfl, ?_, rfl⟩
  have h5 : processLine none none (.num 5) = .ok none := rfl
  rw [h5]
  simp

/-- Claim C10, amended: the tolerance for malformed stream data covers lines
that fail JSON parsing *and* lines parsing to non-object, non-null values
(numbers, booleans, strings, arrays are skipped as non-artifacts); an uncaught
`TypeError` aborts resolution only for a line parsing to the literal `null`,
or for a `compiler-artifact` message lacking a `target` object when a kind or
name filter is set (with neither filter set such a message is processed
without error, and its truthy `executable` is even accepted). -/
theorem wgsl_C10_amended :
    (∀ ek en, processLine ek en .null = .error .typeError)
    ∧ (∀ en k exe,
        processLine (some k) en
          (.obj ([("reason", .str "compiler-artifact")]
                 ++ (match exe with
                     | some s => [("executable", JsValue.str s)]
                     | none => []))) = .error .typeError)
    ∧ (∀ n exe,
        processLine none (some n)
          (.obj ([("reason", .str "compiler-artifact")]
                 ++ (match exe with
                     | some s => [("executable", JsValue.str s)]
                     | none => []))) = .error .typeError)
    ∧ (∀ s, s ≠ "" →
        processLine none none
          (.obj [("reason", .str "compiler-artifact"), ("executable", .str s)])
          = .ok (some (.str s)))
    ∧ (∀ ek en n, processLine ek en (.num n) = .ok none)
    ∧ (∀ ek en b, processLine ek en (.bool b) = .ok none)
    ∧ (∀ ek en s, processLine ek en (.str s) = .ok none)
    ∧ (∀ ek en elems, processLine ek en (.arr elems) = .ok none) := by
  refine ⟨?_, ?_, ?_, ?_, ?_, ?_, ?_, ?_⟩
  · intro ek en; rfl
  · intro en k exe
    cases exe <;> rfl
  · intro n exe
    cases exe <;> rfl
  · intro s hs
    simp [processLine, jsIndex, List.lookup, jsStrictEqStr, checkKind, checkName,
      jsTruthy, hs]
  · intro ek en n; rfl
  · intro ek en b; rfl
  · intro ek en s; rfl
  · intro ek en elems; rfl

/-- Witness for the amended claim C10 at concrete inputs. -/
theorem wgsl_C10_amended_witness :
    processLine none none .null = .error .typeError
    ∧ processLine (some "bin") none
        (.obj [("reason", .str "compiler-artifact"), ("executable", JsValue.str "/x")])
        = .error .typeError
    ∧ processLine none none
        (.obj [("reason", .str "compiler-artifact"), ("executable", .str "/x")])
        = .ok (some (.str "/x")) :=
  ⟨wgsl_C10_amended.1 none none,
   wgsl_C10_amended.2.1 none "bin" (some "/x"),
   wgsl_C10_amended.2.2.2.1 "/x" (by decide)⟩

/-- The debug-related configuration read by `debugSingle`
(`ctx.config.debug`): the runtime selector, the vimspector configuration
name, and the nvim-dap template (possibly absent). -/
structure DebugConfig where
  runtime : String
  vimspectorName : String
  nvimdapTemplate : Option String

/-- JavaScript `s.replace(pattern, replacement)` with a string pattern:
replace the first occurrence only; the string is unchanged when the pattern
does not occur. -/
def replaceFirst (s pat repl : String) : String :=
  match s.splitOn pat with
  | [] => s
  | [_] => s
  | a :: rest => a ++ repl ++ String.intercalate pat rest

/-- One of the three debugger invocations `debugSingle` can dispatch to. -/
inductive DebugLaunch where
  | termdebug (command : String)
  | vimspector (configuration executable args : String)
  | nvimDap (luaCall : String)

/-- The nvim-dap argument string: `executableArgs` split on single spaces,
empty tokens dropped, each token double-quoted, joined with commas. -/
def nvimDapArgs (executableArgs : String) : String :=
  String.intercalate ","
    (((executableArgs.splitOn " ").filter (fun s => s ≠ "")).map
      (fun s => "\"" ++ s ++ "\""))

/-- The debug-runtime dispatch at the end of `debugSingle`: exactly one of
the three recognised runtimes is invoked with the resolved executable; any
other configured value reaches
`throw new Error(`Invalid debug runtime: ${runtime}`)`, modelled by the
`.error` result, which carries no `DebugLaunch` — no debugger child process
is produced. -/
def dispatchDebugRuntime (cfg : DebugConfig) (executable executableArgs : String) :
    Except String DebugLaunch :=
  if cfg.runtime = "termdebug" then
    .ok (.termdebug ("TermdebugCommand " ++ executable ++ " " ++ executableArgs))
  else if cfg.runtime = "vimspector" then
    .ok (.vimspector cfg.vimspectorName executable executableArgs)
  else if cfg.runtime = "nvim-dap" then
    .ok (.nvimDap ("require(\"dap\").run("
      ++ (cfg.nvimdapTemplate.map (fun t =>
            replaceFirst (replaceFirst t "$exe" ("\"" ++ executable ++ "\""))
              "$args" ("\x7b" ++ nvimDapArgs executableArgs ++ "\x7d"))).getD "undefined"
      ++ ")"))
  else
    .error ("Invalid debug runtime: " ++ cfg.runtime)

/-- Claim C7: the debug-runtime dispatch of `debugSingle` launches exactly
one of the three recognised strategies (`termdebug`, `vimspector`,
`nvim-dap`), and any other configured value fails fatally with the
invalid-debug-runtime error, producing no debugger launch (hence before any
debugger child process is spawned). -/
theorem wgsl_C7_dispatch :
    ∀ (cfg : DebugConfig) (exe ea : String),
      (cfg.runtime = "termdebug" →
        dispatchDebugRuntime cfg exe ea
          = .ok (.termdebug ("TermdebugCommand " ++ exe ++ " " ++ ea)))
      ∧ (cfg.runtime = "vimspector" →
        dispatchDebugRuntime cfg exe ea = .ok (.vimspector cfg.vimspectorName exe ea))
      ∧ (cfg.runtime = "nvim-dap" →
        ∃ luaCall, dispatchDebugRuntime cfg exe ea = .ok (.nvimDap luaCall))
      ∧ (cfg.runtime ≠ "termdebug" → cfg.runtime ≠ "vimspector" →
          cfg.runtime ≠ "nvim-dap" →
          dispatchDebugRuntime cfg exe ea
            = .error ("Invalid debug runtime: " ++ cfg.runtime)) := by
  intro cfg exe ea
  refine ⟨?_, ?_, ?_, ?_⟩
  · intro h; simp [dispatchDebugRuntime, h]
  · intro h; simp [dispatchDebugRuntime, h]
  · intro h
    refine ⟨"require(\"dap\").run("
      ++ (cfg.nvimdapTemplate.map (fun t =>
            replaceFirst (replaceFirst t "$exe" ("\"" ++ exe ++ "\""))
              "$args" ("\x7b" ++ nvimDapArgs ea ++ "\x7d"))).getD "undefined"
      ++ ")", ?_⟩
    simp [dispatchDebugRuntime, h]
  · intro h1 h2 h3
    simp [dispatchDebugRuntime, h1, h2, h3]

/-- Witness for claim C7 at concrete inputs: the unrecognised runtime `gdb`
fails fatally and produces no launch; the recognised runtime `termdebug`
dispatches to the built-in debugger strategy. -/
theorem wgsl_C7_dispatch_witness :
    dispatchDebugRuntime ⟨"gdb", "launch", none⟩ "/x" ""
      = .error ("Invalid debug runtime: " ++ "gdb")
    ∧ dispatchDebugRuntime ⟨"termdebug", "launch", none⟩ "/x" "a"
      = .ok (.termdebug ("TermdebugCommand " ++ "/x" ++ " " ++ "a")) :=
  ⟨(wgsl_C7_dispatch ⟨"gdb", "launch", none⟩ "/x" "").2.2.2
      (by decide) (by decide) (by decide),
   (wgsl_C7_dispatch ⟨"termdebug", "launch", none⟩ "/x" "a").1 rfl⟩

/-- Observable terminal-lifecycle events of `runSingle`, with terminals
identified by numeric handles. -/
inductive TermEvent where
  | dispose (id : Nat)
  | create (id : Nat)
deriving DecidableEq

/-- The terminal management of one `runSingle` invocation, as a function of
the module-level slot `let terminal: Terminal | undefined`:

```
if (terminal) { terminal.dispose(); terminal = undefined; }
terminal = await window.createTerminal(opt);
```

The emitted events, in program order: the old terminal (if any) is disposed
first, then the new terminal is created (and stored — the slot afterwards is
`some newId`). -/
def runSingleTerminalEvents : Option Nat → Nat → List TermEvent
  | some old, newId => [.dispose old, .create newId]
  | none, newId => [.create newId]

/-- Effect of one event on the set (as a list) of currently live terminals. -/
def applyTermEvent (alive : List Nat) : TermEvent → List Nat
  | .dispose i => alive.erase i
  | .create i => i :: alive

/-- Effect of a sequence of events on the live-terminal set. -/
def applyTermEvents (alive : List Nat) (events : List TermEvent) : List Nat :=
  events.foldl applyTermEvent alive

/-- The event trace of a whole sequence of `runSingle` invocations starting
from a given slot state: each invocation runs `runSingleTerminalEvents` and
leaves its new terminal in the slot. -/
def terminalTrace : Option Nat → List Nat → List TermEvent
  | _, [] => []
  | slot, id :: rest => runSingleTerminalEvents slot id ++ terminalTrace (some id) rest

theorem terminalTrace_take_alive (ids : List Nat) :
    ∀ (slot : Option Nat) (n : Nat),
      (applyTermEvents slot.toList ((terminalTrace slot ids).take n)).length ≤ 1 := by
  induction ids with
  | nil =>
    intro slot n
    cases slot <;> simp [terminalTrace, applyTermEvents]
  | cons id rest ih =>
    intro slot n
    cases slot with
    | none =>
      cases n with
      | zero => simp [applyTermEvents]
      | succ m =>
        have h : (terminalTrace none (id :: rest)).take (m + 1)
            = TermEvent.create id :: (terminalTrace (some id) rest).take m := rfl
        rw [h]
        have h2 : applyTermEvents ((none : Option Nat).toList)
              (TermEvent.create id :: (terminalTrace (some id) rest).take m)
            = applyTermEvents ((some id : Option Nat).toList)
              ((terminalTrace (some id) rest).take m) := rfl
        rw [h2]
        exact ih (some id) m
    | some old =>
      cases n with
      | zero => simp [applyTermEvents]
      | succ m =>
        cases m with
        | zero =>
          have h : (terminalTrace (some old) (id :: rest)).take 1
              = [TermEvent.dispose old] := rfl
          rw [h]
          have h2 : applyTermEvents ((some old : Option Nat).toList)
              [TermEvent.dispose old] = [old].erase old := rfl
          rw [h2, List.erase_cons_head]
          simp
        | succ m2 =>
          have h : (terminalTrace (some old) (id :: rest)).take (m2 + 2)
              = TermEvent.dispose old :: TermEvent.create id ::
                  (terminalTrace (some id) rest).take m2 := rfl
          rw [h]
          have h2 : applyTermEvents ((some old : Option Nat).toList)
                (TermEvent.dispose old :: TermEvent.create id ::
                  (terminalTrace (some id) rest).take m2)
              = applyTermEvents ([old].erase old)
                (TermEvent.create id :: (terminalTrace (some id) rest).take m2) := rfl
          rw [h2, List.erase_cons_head]
          have h3 : applyTermEvents []
                (TermEvent.create id :: (terminalTrace (some id) rest).take m2)
              = applyTermEvents ((some id : Option Nat).toList)
                ((terminalTrace (some id) rest).take m2) := rfl
          rw [h3]
          exact ih (some id) m2

/-- Claim C8: when `runSingle` starts while a previous run-terminal is open,
the old terminal is disposed first — exactly once — and only then is the new
terminal created and stored; consequently, along any sequence of `runSingle`
invocations, after every prefix of the emitted event trace at most one
terminal managed by this logic is alive. -/
theorem wgsl_C8_terminal_slot :
    (∀ old newId, runSingleTerminalEvents (some old) newId
        = [.dispose old, .create newId])
    ∧ (∀ old newId,
        (runSingleTerminalEvents (some old) newId).count (.dispose old) = 1)
    ∧ (∀ (slot : Option Nat) (ids : List Nat) (n : Nat),
        (applyTermEvents slot.toList ((terminalTrace slot ids).take n)).length ≤ 1) := by
  refine ⟨?_, ?_, ?_⟩
  · intro old newId; rfl
  · intro old newId
    simp [runSingleTerminalEvents, List.count_cons]
  · intro slot ids n
    exact terminalTrace_take_alive ids slot n

/-- The runnable catalog fetcher `fetchRunnable`: if the active document is
not a WGSL document, return the empty list without querying the server
(`if (!isWgslDocument(document)) return [];`); otherwise return the server's
runnable list.  The function is total — no error is raised. -/
def fetchRunnable (isWgslDoc : Bool) (serverRunnables : List Runnable) : List Runnable :=
  if isWgslDoc then serverRunnables else []

/-- Result of `pickRunnable`: the selected runnable (if any) and whether the
quick-pick UI was presented to the user. -/
structure PickOutcome where
  selection : Option Runnable
  pickerShown : Bool
deriving DecidableEq

/-- The runnable selector `pickRunnable`: fetch the catalog; an empty list
short-circuits to no selection without showing the picker
(`if (!runnables.length) return;`); a cancelled picker (`showQuickpick`
returning `-1`) yields no selection; otherwise the runnable at the chosen
index is returned.  The function is total — every precondition failure is a
silent no-op, never an error. -/
def pickRunnable (isWgslDoc : Bool) (serverRunnables : List Runnable)
    (choice : Int) : PickOutcome :=
  let runnables := fetchRunnable isWgslDoc serverRunnables
  if runnables.length = 0 then ⟨none, false⟩
  else if choice = -1 then ⟨none, true⟩
  else ⟨runnables.get? choice.toNat, true⟩

/-- Claim C9: every precondition-not-met case is a silent no-op — a
non-WGSL document makes the catalog fetcher return the empty list (and the
selection short-circuit without a picker), an empty runnable list
short-circuits selection without presenting the picker, and user cancellation
of the picker (index `-1`) yields no selection.  All modelled functions are
total, so no error is raised in any of these cases. -/
theorem wgsl_C9_preconditions :
    (∀ rs, fetchRunnable false rs = [])
    ∧ (∀ rs ch, pickRunnable false rs ch = ⟨none, false⟩)
    ∧ (∀ w ch, pickRunnable w [] ch = ⟨none, false⟩)
    ∧ (∀ rs ch, rs.length ≠ 0 → ch = -1 → pickRunnable true rs ch = ⟨none, true⟩) := by
  refine ⟨?_, ?_, ?_, ?_⟩
  · intro rs; rfl
  · intro rs ch
    simp [pickRunnable, fetchRunnable]
  · intro w ch
    cases w <;> simp [pickRunnable, fetchRunnable]
  · intro rs ch h1 h2
    subst h2
    simp [pickRunnable, fetchRunnable, h1]

/-- Witness for claim C9 at a concrete input: cancelling the picker on a
one-element catalog yields no selection (with the picker having been
shown). -/
theorem wgsl_C9_preconditions_witness :
    pickRunnable true [Runnable.webby "webby test" ["test"] [] "/w"] (-1)
      = ⟨none, true⟩ :=
  wgsl_C9_preconditions.2.2.2 [Runnable.webby "webby test" ["test"] [] "/w"] (-1)
    (by decide) rfl
